import Mathlib

/-!
# SAGED-Bias benchmark-builder frontend: verification of configuration logic

Shallow embedding of the configuration-building logic of the SAGED-Bias
web frontend (`app/frontend` and `app_simplified/frontend`): the domain
configuration form, the source-selection form, the prompt-assembler form
and the branching form, together with the data model of
`types/saged_config.ts`.  JavaScript objects whose insertion order matters
(`Object.fromEntries`, `acc[k] = v` in a `reduce`) are embedded as
association lists with JavaScript assignment semantics.  The SAGED
pipeline's domain merger, whose Python source is not part of this tree,
is modelled from the specification (see `DomainMerger.merge`).
-/

namespace SagedSpec

/-! ## JavaScript object semantics as association lists

A JavaScript object literal keyed by strings behaves as an ordered
association list: property assignment `o[k] = v` overwrites the value in
place when `k` is already a key (keeping the key's original position) and
appends `(k, v)` otherwise. -/

/-- List of keys of an association list, in insertion order. -/
def keys {α : Type} (m : List (String × α)) : List String :=
  m.map Prod.fst

/-- First-occurrence lookup; on maps built by `objAssign` keys are unique,
so this is exactly JavaScript property access `m[k]`. -/
def lookupA {α : Type} (k : String) : List (String × α) → Option α
  | [] => none
  | e :: rest => if e.1 = k then some e.2 else lookupA k rest

/-- JavaScript property assignment `m[k] = v`: overwrite in place when the
key exists, append otherwise. -/
def objAssign {α : Type} (m : List (String × α)) (k : String) (v : α) :
    List (String × α) :=
  if k ∈ keys m then m.map (fun e => if e.1 = k then (k, v) else e)
  else m ++ [(k, v)]

/-- `Object.fromEntries`: repeated property assignment starting from `{}`.
On duplicate keys the last value wins, at the position of the key's first
occurrence. -/
def objFromEntries {α : Type} (entries : List (String × α)) :
    List (String × α) :=
  entries.foldl (fun m e => objAssign m e.1 e.2) []

/-- Deduplication keeping the first occurrence of each element, in order:
the key order produced by repeated JavaScript property assignment. -/
def dedupFirst (l : List String) : List String :=
  l.foldl (fun acc a => if a ∈ acc then acc else acc ++ [a]) []

/-- Value attached to the last entry of `entries` whose key is `k`. -/
def lastAssoc {α : Type} (entries : List (String × α)) (k : String) :
    Option α :=
  entries.foldl (fun acc e => if e.1 = k then some e.2 else acc) none

/-! ## JavaScript string primitives

The frontend handlers use `String.prototype.trim` and the global
`parseInt`.  They are embedded over `List Char`:
- `jsTrim` strips leading and trailing whitespace;
- `jsParseInt` skips leading whitespace, reads an optional sign and then
  the longest prefix of decimal digits, returning `none` (JavaScript
  `NaN`) when no digits follow.  (The `0x` hexadecimal prefix of the real
  `parseInt` is not modelled: the handlers below only ever receive the
  value of an `<input type="number">`, which is a decimal string or
  empty.) -/

/-- Whitespace as recognised by `trim` / `parseInt` (core set). -/
def isJsWhitespace (c : Char) : Bool :=
  c = ' ' || c = '\t' || c = '\n' || c = '\r'

/-- JavaScript `s.trim()`. -/
def jsTrim (s : String) : String :=
  ⟨((s.data.dropWhile isJsWhitespace).reverse.dropWhile
      isJsWhitespace).reverse⟩

/-- Accumulate the value of the longest decimal-digit prefix. -/
def digitsValAux (acc : Nat) : List Char → Nat
  | [] => acc
  | c :: rest =>
    if c.isDigit then digitsValAux (acc * 10 + (c.toNat - 48)) rest
    else acc

/-- Value of the longest decimal-digit prefix, `none` when it is empty
(JavaScript `NaN`). -/
def digitsPrefixVal : List Char → Option Nat
  | [] => none
  | c :: rest =>
    if c.isDigit then some (digitsValAux (c.toNat - 48) rest) else none

/-- Split an optional leading sign: returns `(negative?, rest)`. -/
def jsSignSplit : List Char → Bool × List Char
  | [] => (false, [])
  | c :: rest =>
    if c = '-' then (true, rest)
    else if c = '+' then (false, rest)
    else (false, c :: rest)

/-- JavaScript `parseInt(s)` on decimal input, `none` for `NaN`. -/
def jsParseInt (s : String) : Option Int :=
  (digitsPrefixVal (jsSignSplit (s.data.dropWhile isJsWhitespace)).2).map
    (fun n =>
      if (jsSignSplit (s.data.dropWhile isJsWhitespace)).1 then -(n : Int)
      else (n : Int))

/-! ## Data model (`types/saged_config.ts`)

The structures below mirror the TypeScript interfaces field by field.
Fields of TypeScript type `any` never influence the verified logic; they
are embedded with a concrete type matching their default value. -/

/-- `llm_info` block of `KeywordFinderConfig`. -/
structure LlmInfo where
  n_run : Nat
  n_keywords : Nat
deriving DecidableEq

/-- `KeywordFinderConfig` interface. -/
structure KeywordFinderConfig where
  require : Bool
  reading_location : String
  method : String
  keyword_number : Nat
  hyperlinks_info : List String
  llm_info : LlmInfo
  max_adjustment : Nat
  embedding_model : String
  saving : Bool
  saving_location : String
  manual_keywords : Option (List String) := none
  concept_keywords : Option (List (String × List (String × String))) := none
deriving DecidableEq

/-- `SourceFinderConfig` interface. -/
structure SourceFinderConfig where
  require : Bool
  reading_location : String
  method : String
  local_file : Option String := none
  scrape_number : Nat
  saving : Bool
  saving_location : String
  scrape_backlinks : Nat
  manual_sources : Option (List String) := none
deriving DecidableEq

/-- `ScraperConfig` interface. -/
structure ScraperConfig where
  require : Bool
  reading_location : String
  saving : Bool
  method : String
  saving_location : String
deriving DecidableEq

/-- `PromptAssemblerConfig` interface.  `max_benchmark_length` is an `Int`
because JavaScript numbers are signed and nothing in the code clamps the
parsed value. -/
structure PromptAssemblerConfig where
  require : Bool
  method : String
  generation_function : Option String := none
  keyword_list : Option (List String) := none
  answer_check : Bool
  saving_location : String
  max_benchmark_length : Int
deriving DecidableEq

/-- `ConceptBenchmarkConfig` interface: the shared (domain-wide) config. -/
structure ConceptBenchmarkConfig where
  keyword_finder : KeywordFinderConfig
  source_finder : SourceFinderConfig
  scraper : ScraperConfig
  prompt_assembler : PromptAssemblerConfig
deriving DecidableEq

/-- `ReplacementDescription`: stem concept → branch concept →
(original keyword → replacement keyword), each level an insertion-ordered
JavaScript object. -/
abbrev ReplacementDescription :=
  List (String × List (String × List (String × String)))

/-- `BranchingConfig` interface. -/
structure BranchingConfig where
  branching_pairs : String
  direction : String
  source_restriction : Option String := none
  replacement_descriptor_require : Bool
  descriptor_threshold : String
  descriptor_embedding_model : String
  descriptor_distance : String
  replacement_description : ReplacementDescription
  replacement_description_saving : Bool
  replacement_description_saving_location : String
  counterfactual_baseline : Bool
  generation_function : Option String := none
deriving DecidableEq

/-- Per-concept `keyword_finder` override (element type of
`concept_specified_config`). -/
structure KeywordFinderOverride where
  manual_keywords : Option (List String) := none
deriving DecidableEq

/-- Per-concept `source_finder` override. -/
structure SourceFinderOverride where
  manual_sources : Option (List String) := none
deriving DecidableEq

/-- One entry of `concept_specified_config`. -/
structure ConceptOverride where
  keyword_finder : Option KeywordFinderOverride := none
  source_finder : Option SourceFinderOverride := none
deriving DecidableEq

/-- `DatabaseConfig` interface. -/
structure DatabaseConfig where
  use_database : Bool
  database_type : String
  database_connection : String
  table_prefix : String
  source_text_table : String
deriving DecidableEq

/-- `DomainBenchmarkConfig` interface: the full build-form configuration
sent to the backend. -/
structure DomainBenchmarkConfig where
  domain : String
  concepts : List String
  branching : Bool
  branching_config : Option BranchingConfig := none
  shared_config : ConceptBenchmarkConfig
  concept_specified_config : List (String × ConceptOverride)
  saving : Bool
  saving_location : String
  database_config : DatabaseConfig
deriving DecidableEq

/-- `defaultConfig` of `types/saged_config.ts`, field for field. -/
def defaultConfig : DomainBenchmarkConfig :=
  { domain := ""
    concepts := []
    branching := false
    shared_config :=
      { keyword_finder :=
          { require := false
            reading_location := "default"
            method := "embedding_on_wiki"
            keyword_number := 7
            hyperlinks_info := []
            llm_info := { n_run := 10, n_keywords := 5 }
            max_adjustment := 150
            embedding_model := "paraphrase-Mpnet-base-v2"
            saving := true
            saving_location := "default" }
        source_finder :=
          { require := false
            reading_location := "default"
            method := "wiki"
            scrape_number := 5
            saving := true
            saving_location := "default"
            scrape_backlinks := 0 }
        scraper :=
          { require := true
            reading_location := "default"
            saving := true
            method := "wiki"
            saving_location := "default" }
        prompt_assembler :=
          { require := true
            method := "split_sentences"
            answer_check := false
            saving_location := "default"
            max_benchmark_length := 500 } }
    concept_specified_config := []
    saving := true
    saving_location := "default"
    database_config :=
      { use_database := false
        database_type := "sql"
        database_connection := ""
        table_prefix := ""
        source_text_table := "source_texts" }
    branching_config := some
      { branching_pairs := "not_all"
        direction := "not_both"
        replacement_descriptor_require := false
        descriptor_threshold := "Auto"
        descriptor_embedding_model := "paraphrase-Mpnet-base-v2"
        descriptor_distance := "cosine"
        replacement_description := []
        replacement_description_saving := true
        replacement_description_saving_location := "default"
        counterfactual_baseline := true } }

/-! ## `PromptAssemblerBranching` (branching form) -/

/-- `ConceptPair` local state of the branching form. -/
structure ConceptPair where
  root : String
  branch : String
  keywordReplacements : List (String × String)
deriving DecidableEq

/-- `handleAddPair`: appends a new pair when both the selected stem term
and the typed branch term are truthy (non-empty); seeds the keyword
replacements with the pair itself.  No check relates `root` to
`branch`. -/
def handleAddPair (selectedRoot branchConcept : String)
    (prev : List ConceptPair) : List ConceptPair :=
  if selectedRoot ≠ "" ∧ branchConcept ≠ "" then
    prev ++ [{ root := selectedRoot, branch := branchConcept,
               keywordReplacements := [(selectedRoot, branchConcept)] }]
  else prev

/-- One step of the `reduce` in the branching form's `useEffect`:
`if (!acc[pair.root]) acc[pair.root] = {};`
`acc[pair.root][pair.branch] = Object.fromEntries(pair.keywordReplacements
  .map(kr => [kr.original, kr.replacement]))`. -/
def rdStep (acc : ReplacementDescription) (pair : ConceptPair) :
    ReplacementDescription :=
  let acc' := if pair.root ∈ keys acc then acc else acc ++ [(pair.root, [])]
  acc'.map (fun e =>
    if e.1 = pair.root then
      (e.1, objAssign e.2 pair.branch (objFromEntries pair.keywordReplacements))
    else e)

/-- The nested `replacementDescription` dictionary built by the `reduce`
over the concept pairs. -/
def buildReplacementDescription (conceptPairs : List ConceptPair) :
    ReplacementDescription :=
  conceptPairs.foldl rdStep []

/-- Lookup of the keyword-replacement map attached to a
`(stem, branch)` pair of a replacement description. -/
def rdLookup (rd : ReplacementDescription) (stem branch : String) :
    Option (List (String × String)) :=
  (lookupA stem rd).bind (fun inner => lookupA branch inner)

/-- Spec-side reading of the claimed first-match-wins rule: keep, for each
duplicated original keyword, the FIRST replacement listed, in order of
first occurrence.  Written from the specification's words for comparison
with `objFromEntries`, which the code actually uses. -/
def firstMatchWins (kv : List (String × String)) :
    List (String × String) :=
  kv.foldl (fun acc e => if e.1 ∈ keys acc then acc else acc ++ [e]) []

/-- `branching_config` object pushed by the branching form's `useEffect`
through `onConfigChange`. -/
def promptAssemblerBranchingConfig (useKeywordHelper : Bool)
    (conceptPairs : List ConceptPair) : BranchingConfig :=
  { branching_pairs := "not_all"
    direction := "forward"
    replacement_descriptor_require := useKeywordHelper
    descriptor_threshold := "Auto"
    descriptor_embedding_model := "paraphrase-Mpnet-base-v2"
    descriptor_distance := "cosine"
    replacement_description := buildReplacementDescription conceptPairs
    replacement_description_saving := true
    replacement_description_saving_location := "default"
    counterfactual_baseline := true }

/-- Full configuration update performed by the branching form's
`useEffect` (`onConfigChange({...config, branching: true,
branching_config: {...}})`). -/
def applyBranchingForm (config : DomainBenchmarkConfig)
    (useKeywordHelper : Bool) (conceptPairs : List ConceptPair) :
    DomainBenchmarkConfig :=
  { config with
    branching := true
    branching_config :=
      some (promptAssemblerBranchingConfig useKeywordHelper conceptPairs) }

/-! ## `DomainConfig` form (domain, concepts, keywords) -/

/-- Componentwise initialisation of the `conceptKeywords` state:
`config.concept_specified_config[concept]?.keyword_finder?.manual_keywords
 || [concept]` for each concept. -/
def initConceptKeywords (config : DomainBenchmarkConfig) :
    List (String × List String) :=
  config.concepts.foldl
    (fun acc concept =>
      objAssign acc concept
        ((((lookupA concept config.concept_specified_config).bind
              (fun ov => ov.keyword_finder)).bind
            (fun kf => kf.manual_keywords)).getD [concept]))
    []

/-- Keyword-state update of `handleConceptsChange`: rebuild
`conceptKeywords` from scratch, keeping stored keywords for surviving
concepts and defaulting new ones to `[concept]`. -/
def handleConceptsChangeKeywords
    (conceptKeywords : List (String × List String))
    (concepts : List String) : List (String × List String) :=
  concepts.foldl
    (fun acc concept =>
      objAssign acc concept ((lookupA concept conceptKeywords).getD [concept]))
    []

/-- The `DomainConfig` component state acted on by
`handleConceptsChange` and `handleConfirm`. -/
structure DomainConfigState where
  tempConfig : DomainBenchmarkConfig
  conceptKeywords : List (String × List String)

/-- `handleConceptsChange`: replaces the concepts list and rebuilds the
keyword state; `tempConfig.concept_specified_config` is left untouched
(entries of removed concepts are NOT deleted). -/
def handleConceptsChange (st : DomainConfigState)
    (concepts : List String) : DomainConfigState :=
  { tempConfig := { st.tempConfig with concepts := concepts }
    conceptKeywords :=
      handleConceptsChangeKeywords st.conceptKeywords concepts }

/-- Loop body of `handleConfirm`'s override update:
`updatedConceptConfig[concept] = { ...updatedConceptConfig[concept],
  keyword_finder: { ...updatedConceptConfig[concept]?.keyword_finder,
                    manual_keywords: keywords } }`. -/
def setManualKeywords (m : List (String × ConceptOverride))
    (concept : String) (keywords : List String) :
    List (String × ConceptOverride) :=
  let old := (lookupA concept m).getD {}
  objAssign m concept
    { old with
      keyword_finder := some
        { (old.keyword_finder.getD {}) with
          manual_keywords := some keywords } }

/-- The whole `Object.entries(conceptKeywords).forEach` of
`handleConfirm`, starting from a spread copy of
`tempConfig.concept_specified_config`. -/
def confirmConceptConfig (csc : List (String × ConceptOverride))
    (conceptKeywords : List (String × List String)) :
    List (String × ConceptOverride) :=
  conceptKeywords.foldl (fun acc e => setManualKeywords acc e.1 e.2) csc

/-- `shared_config` update of `handleConfirm`: sets
`keyword_finder.require` and forces `method` to `"embedding_on_wiki"`
when the AI assistant is off; all other shared settings are spread
through unchanged. -/
def confirmSharedConfig (shared : ConceptBenchmarkConfig)
    (showKeywordFinder : Bool) : ConceptBenchmarkConfig :=
  { shared with
    keyword_finder :=
      { shared.keyword_finder with
        require := showKeywordFinder
        method :=
          if showKeywordFinder then shared.keyword_finder.method
          else "embedding_on_wiki" } }

/-- `DomainConfig.handleConfirm`: validates (topic name non-blank, at
least one concept), then produces the confirmed configuration passed to
`onConfigChange`; `Except.error` is the `setError` message shown in the
form, in which case `onConfigChange` is not called. -/
def handleConfirm (tempConfig : DomainBenchmarkConfig)
    (conceptKeywords : List (String × List String))
    (showKeywordFinder : Bool) : Except String DomainBenchmarkConfig :=
  if jsTrim tempConfig.domain = "" then
    Except.error "Topic name is required"
  else if tempConfig.concepts.length = 0 then
    Except.error "At least one concept is required"
  else
    Except.ok
      { tempConfig with
        concept_specified_config :=
          confirmConceptConfig tempConfig.concept_specified_config
            conceptKeywords
        shared_config :=
          confirmSharedConfig tempConfig.shared_config showKeywordFinder }

/-! ## `BenchmarkConfigForm` (top-level submit) -/

/-- `validateForm` of `build_forms.tsx`: false when the trimmed domain is
empty, the concepts list is empty, the source finder is not required, or
the prompt-assembler method is falsy (empty string). -/
def validateForm (config : DomainBenchmarkConfig) : Bool :=
  if jsTrim config.domain = "" ∨ config.concepts.length = 0
      ∨ config.shared_config.source_finder.require = false
      ∨ config.shared_config.prompt_assembler.method = "" then
    false
  else true

/-- Observable outcome of `handleSubmit`: either the validation dialog is
shown (and no HTTP request made), or a build request with the current
configuration is POSTed to the backend. -/
inductive SubmitAction where
  | showValidationDialog : SubmitAction
  | sendBuildRequest : DomainBenchmarkConfig → SubmitAction
deriving DecidableEq

/-- `handleSubmit`: returns early (showing validation) when
`validateForm` fails, otherwise sends the build request. -/
def handleSubmit (config : DomainBenchmarkConfig) : SubmitAction :=
  if validateForm config then SubmitAction.sendBuildRequest config
  else SubmitAction.showValidationDialog

/-! ## `SourceSelection` form -/

/-- Uploaded source with its assigned concepts (`SourceWithConcepts`). -/
structure SourceWithConcepts where
  concepts : List String
  uploadedPath : Option String := none
deriving DecidableEq

/-- Grouping of uploaded paths by concept inside `updateSourceConfig`
(`conceptSources`): an entry is created for every assigned concept, and
the path is pushed when the upload succeeded. -/
def groupConceptSources (sources : List SourceWithConcepts) :
    List (String × List String) :=
  sources.foldl
    (fun acc source =>
      source.concepts.foldl
        (fun acc concept =>
          let cur := (lookupA concept acc).getD []
          objAssign acc concept
            (match source.uploadedPath with
             | some p => cur ++ [p]
             | none => cur))
        acc)
    []

/-- Per-concept override update of `updateSourceConfig`:
`updatedConceptConfig[concept] = { ...updatedConceptConfig[concept],
  source_finder: { ...updatedConceptConfig[concept]?.source_finder,
                   manual_sources: paths } }`. -/
def setManualSources (m : List (String × ConceptOverride))
    (concept : String) (paths : List String) :
    List (String × ConceptOverride) :=
  let old := (lookupA concept m).getD {}
  objAssign m concept
    { old with
      source_finder := some
        { (old.source_finder.getD {}) with
          manual_sources := some paths } }

/-- `SourceSelection.updateSourceConfig`: updates overrides of concepts
that received at least one path, then rewrites
`shared_config.source_finder` (require := true, method from the Wikipedia
toggle) and keeps `shared_config.scraper.method` in sync.  All of
`handleFilesChange`, `handleSourceConceptsChange`,
`handleWikipediaToggle` and `handleConfirm` funnel through this
function. -/
def updateSourceConfig (config : DomainBenchmarkConfig)
    (sources : List SourceWithConcepts) (useWikipedia : Bool) :
    DomainBenchmarkConfig :=
  let updatedConceptConfig :=
    (groupConceptSources sources).foldl
      (fun acc e =>
        if e.2.length > 0 then setManualSources acc e.1 e.2 else acc)
      config.concept_specified_config
  let method := if useWikipedia then "wiki" else "local_files"
  { config with
    concept_specified_config := updatedConceptConfig
    shared_config :=
      { config.shared_config with
        source_finder :=
          { config.shared_config.source_finder with
            require := true
            method := method }
        scraper :=
          { config.shared_config.scraper with method := method } } }

/-! ## `ConceptList` widget (`app_simplified/.../ui/concept-list.tsx`) -/

/-- `handleAddConcept`: appends the trimmed entry when it is non-empty,
not already present, and (when an `availableConcepts` whitelist is given)
whitelisted. -/
def handleAddConcept (concepts : List String)
    (availableConcepts : Option (List String)) (newConcept : String) :
    List String :=
  if jsTrim newConcept ≠ "" ∧ jsTrim newConcept ∉ concepts then
    match availableConcepts with
    | some avail =>
      if jsTrim newConcept ∉ avail then concepts
      else concepts ++ [jsTrim newConcept]
    | none => concepts ++ [jsTrim newConcept]
  else concepts

/-- `handleRemoveConcept`: filters out every occurrence of the removed
concept, preserving the order of the rest. -/
def handleRemoveConcept (concepts : List String)
    (conceptToRemove : String) : List String :=
  concepts.filter (fun concept => decide (concept ≠ conceptToRemove))

/-! ## `PromptAssemblerConfig` form (`app_simplified`) -/

/-- `handleMaxBenchmarkLengthChange`: stores
`parseInt(e.target.value) || 0`.  Since `0 || 0` is `0`, the `|| 0` only
converts `NaN` to `0`, which is `Option.getD 0` on the embedded
parser. -/
def handleMaxBenchmarkLengthChange (config : DomainBenchmarkConfig)
    (value : String) : DomainBenchmarkConfig :=
  { config with
    shared_config :=
      { config.shared_config with
        prompt_assembler :=
          { config.shared_config.prompt_assembler with
            max_benchmark_length := (jsParseInt value).getD 0 } } }

/-! ## DomainMerger (spec-modelled)

The tiered per-concept build results and the domain merger live in the
SAGED Python pipeline, which is not part of this source tree (only the
frontend and a prose description of the flow are).  The following
definitions are therefore modelled from the specification. -/

/-- Modelled from the spec: the per-concept tier of §4.5 (the pipeline
stage a concept's benchmark has reached); `Failed` is terminal. -/
inductive Tier where
  | Pending : Tier
  | Scraped : Tier
  | Assembled : Tier
  | Branched : Tier
  | Failed : Tier
deriving DecidableEq

/-- Modelled from the spec: the error taxonomy of §7. -/
inductive ErrorKind where
  | ConfigValidationError : ErrorKind
  | SourceUnavailableError : ErrorKind
  | EmbeddingServiceError : ErrorKind
  | ThresholdDerivationError : ErrorKind
  | MergeConflictError : ErrorKind
  | Cancelled : ErrorKind
deriving DecidableEq

/-- Modelled from the spec: `PromptRecord` of §3. -/
structure PromptRecord where
  id : String
  concept : String
  source_tag : String
  text : String
  root_keyword : Option String := none
  origin_sentence_id : String
deriving DecidableEq

/-- Modelled from the spec: `BranchedPromptRecord` of §3. -/
structure BranchedPromptRecord where
  id : String
  concept : String
  text : String
  lineage_id : String
  direction : String
  is_baseline : Bool
deriving DecidableEq

/-- Modelled from the spec: `ConceptBuildResult` of §3; a `Failed` result
carries its recorded `ErrorKind` in `error`. -/
structure ConceptBuildResult where
  concept : String
  tier : Tier
  prompts : List PromptRecord
  branches : List BranchedPromptRecord
  error : Option ErrorKind := none
deriving DecidableEq

/-- Modelled from the spec: `DomainBenchmark` of §3. -/
structure DomainBenchmark where
  prompts : List PromptRecord
  branches : List BranchedPromptRecord
  skipped_concepts : List (String × ErrorKind)
deriving DecidableEq

/-- Modelled from the spec: `DomainMerger.merge` of §4.6 (the Python
merger is absent from src/).  Failed concepts are excluded from the
merged records and recorded in `skipped_concepts`; the merge fails with
`MergeConflictError` exactly when every concept is `Failed` (no usable
data). -/
def DomainMerger.merge (results : List ConceptBuildResult) :
    Except ErrorKind DomainBenchmark :=
  if ∀ r ∈ results, r.tier = Tier.Failed then
    Except.error ErrorKind.MergeConflictError
  else
    Except.ok
      { prompts :=
          (results.filter (fun r => decide (r.tier ≠ Tier.Failed))).foldr
            (fun r acc => r.prompts ++ acc) []
        branches :=
          (results.filter (fun r => decide (r.tier ≠ Tier.Failed))).foldr
            (fun r acc => r.branches ++ acc) []
        skipped_concepts :=
          (results.filter (fun r => decide (r.tier = Tier.Failed))).filterMap
            (fun r => r.error.map (fun e => (r.concept, e))) }

/-! ## Concrete instances used by counterexamples and witnesses -/

/-- A confirmed configuration with two concepts, concept `"B"` carrying a
`source_finder` override. -/
def demoConfigAB : DomainBenchmarkConfig :=
  { defaultConfig with
    domain := "energy"
    concepts := ["A", "B"]
    concept_specified_config :=
      [("B", { source_finder := some { manual_sources := some ["b.txt"] } })] }

/-- The state of the `DomainConfig` form on `demoConfigAB` after the user
removes concept `"B"`. -/
def demoStateAfterRemove : DomainConfigState :=
  handleConceptsChange
    { tempConfig := demoConfigAB
      conceptKeywords := initConceptKeywords demoConfigAB } ["A"]

/-- Confirm outcome on `demoStateAfterRemove` (AI assistant off). -/
def demoConfirmOutcome : Except String DomainBenchmarkConfig :=
  handleConfirm demoStateAfterRemove.tempConfig
    demoStateAfterRemove.conceptKeywords false

/-- Keys of the confirmed `concept_specified_config` (empty on a
validation error). -/
def confirmedOverrideKeys (out : Except String DomainBenchmarkConfig) :
    List String :=
  match out with
  | Except.ok c => keys c.concept_specified_config
  | Except.error _ => []

/-- Concepts list of a confirm outcome (empty on a validation error). -/
def confirmedConcepts (out : Except String DomainBenchmarkConfig) :
    List String :=
  match out with
  | Except.ok c => c.concepts
  | Except.error _ => []

/-- Whether a confirm outcome is a success. -/
def confirmSucceeded (out : Except String DomainBenchmarkConfig) : Bool :=
  match out with
  | Except.ok _ => true
  | Except.error _ => false

/-- The configuration committed by `demoConfirmOutcome` (which
succeeds). -/
def demoConfirmResult : DomainBenchmarkConfig :=
  match demoConfirmOutcome with
  | Except.ok c => c
  | Except.error _ => defaultConfig

/-- A successful (Branched) build result for one concept. -/
def demoOkResult : ConceptBuildResult :=
  { concept := "solar"
    tier := Tier.Branched
    prompts := [{ id := "p1", concept := "solar", source_tag := "doc1"
                  text := "Solar energy is renewable"
                  root_keyword := some "solar"
                  origin_sentence_id := "s1" }]
    branches := [{ id := "b1", concept := "wind"
                   text := "Wind energy is renewable"
                   lineage_id := "p1", direction := "forward"
                   is_baseline := false }] }

/-- A failed build result for another concept. -/
def demoFailedResult : ConceptBuildResult :=
  { concept := "coal"
    tier := Tier.Failed
    prompts := []
    branches := []
    error := some ErrorKind.SourceUnavailableError }

/-! # Theorems -/

/-! ## Association-list lemmas -/

@[simp] theorem lookupA_nil {α : Type} (k : String) :
    lookupA k ([] : List (String × α)) = none := rfl

@[simp] theorem lookupA_cons {α : Type} (k : String) (e : String × α)
    (rest : List (String × α)) :
    lookupA k (e :: rest) =
      if e.1 = k then some e.2 else lookupA k rest := rfl

theorem lookupA_append_of_not_mem {α : Type} (k : String)
    (m m' : List (String × α)) (h : k ∉ keys m) :
    lookupA k (m ++ m') = lookupA k m' := by
  induction m with
  | nil => rfl
  | cons e rest ih =>
    simp only [keys, List.map_cons, List.mem_cons] at h
    push_neg at h
    simp only [List.cons_append, lookupA_cons]
    rw [if_neg (fun hk => h.1 hk.symm)]
    exact ih (fun hm => h.2 hm)

theorem lookupA_eq_none_of_not_mem {α : Type} (k : String)
    (m : List (String × α)) (h : k ∉ keys m) :
    lookupA k m = none := by
  have := lookupA_append_of_not_mem k m ([] : List (String × α)) h
  simpa using this

theorem keys_objAssign {α : Type} (m : List (String × α)) (k : String)
    (v : α) :
    keys (objAssign m k v) =
      if k ∈ keys m then keys m else keys m ++ [k] := by
  unfold objAssign
  by_cases h : k ∈ keys m
  · rw [if_pos h, if_pos h]
    simp only [keys, List.map_map]
    apply List.map_congr_left
    intro e _
    by_cases he : e.1 = k
    · simp [he]
    · simp [he]
  · rw [if_neg h, if_neg h]
    simp [keys]

theorem mem_keys_objAssign {α : Type} (m : List (String × α))
    (k a : String) (v : α) :
    a ∈ keys (objAssign m k v) ↔ a ∈ keys m ∨ a = k := by
  rw [keys_objAssign]
  by_cases h : k ∈ keys m
  · rw [if_pos h]
    constructor
    · exact Or.inl
    · rintro (ha | rfl)
      · exact ha
      · exact h
  · rw [if_neg h]
    simp

theorem lookupA_objAssign_self {α : Type} (m : List (String × α))
    (k : String) (v : α) :
    lookupA k (objAssign m k v) = some v := by
  unfold objAssign
  by_cases h : k ∈ keys m
  · rw [if_pos h]
    induction m with
    | nil => simp [keys] at h
    | cons e rest ih =>
      by_cases he : e.1 = k
      · simp [he]
      · simp only [List.map_cons, if_neg he, lookupA_cons]
        apply ih
        simp only [keys, List.map_cons, List.mem_cons] at h
        rcases h with h | h
        · exact absurd h.symm he
        · exact h
  · rw [if_neg h, lookupA_append_of_not_mem k m _ h]
    simp

theorem lookupA_map_replace {α : Type} (m : List (String × α))
    (k k' : String) (v : α) (h : k' ≠ k) :
    lookupA k' (m.map (fun e => if e.1 = k then (k, v) else e)) =
      lookupA k' m := by
  induction m with
  | nil => rfl
  | cons e rest ih =>
    by_cases he : e.1 = k
    · simp only [List.map_cons, if_pos he, lookupA_cons]
      rw [if_neg (fun hk : k = k' => h hk.symm),
        if_neg (fun hk : e.1 = k' => h (he ▸ hk).symm), ih]
    · simp only [List.map_cons, if_neg he, lookupA_cons]
      by_cases hek : e.1 = k'
      · simp [hek]
      · rw [if_neg hek, if_neg hek, ih]

theorem lookupA_append_single_ne {α : Type} (m : List (String × α))
    (k k' : String) (v : α) (h : k' ≠ k) :
    lookupA k' (m ++ [(k, v)]) = lookupA k' m := by
  induction m with
  | nil =>
    simp only [List.nil_append, lookupA_cons, lookupA_nil]
    rw [if_neg (fun hk : k = k' => h hk.symm)]
  | cons e rest ih =>
    simp only [List.cons_append, lookupA_cons]
    by_cases hek : e.1 = k'
    · simp [hek]
    · rw [if_neg hek, if_neg hek, ih]

theorem lookupA_objAssign_ne {α : Type} (m : List (String × α))
    (k k' : String) (v : α) (h : k' ≠ k) :
    lookupA k' (objAssign m k v) = lookupA k' m := by
  unfold objAssign
  by_cases hm : k ∈ keys m
  · rw [if_pos hm]
    exact lookupA_map_replace m k k' v h
  · rw [if_neg hm]
    exact lookupA_append_single_ne m k k' v h

theorem lookupA_objAssign {α : Type} (m : List (String × α))
    (k k' : String) (v : α) :
    lookupA k (objAssign m k' v) =
      if k' = k then some v else lookupA k m := by
  by_cases h : k' = k
  · subst h
    rw [if_pos rfl, lookupA_objAssign_self]
  · rw [if_neg h, lookupA_objAssign_ne m k' k v (fun hk => h hk.symm)]

@[simp] theorem keys_cons {α : Type} (e : String × α)
    (m : List (String × α)) : keys (e :: m) = e.1 :: keys m := rfl

theorem keys_foldl_objAssign {α : Type} (kv : List (String × α)) :
    ∀ m : List (String × α),
      keys (kv.foldl (fun acc e => objAssign acc e.1 e.2) m) =
        (keys kv).foldl
          (fun acc a => if a ∈ acc then acc else acc ++ [a]) (keys m) := by
  induction kv with
  | nil => intro m; rfl
  | cons e rest ih =>
    intro m
    rw [keys_cons, List.foldl_cons, List.foldl_cons,
      ih (objAssign m e.1 e.2), keys_objAssign]

theorem keys_objFromEntries {α : Type} (kv : List (String × α)) :
    keys (objFromEntries kv) = dedupFirst (keys kv) := by
  unfold objFromEntries dedupFirst
  rw [keys_foldl_objAssign kv []]
  rfl

theorem lookupA_foldl_objAssign {α : Type} (kv : List (String × α))
    (k : String) :
    ∀ m : List (String × α),
      lookupA k (kv.foldl (fun acc e => objAssign acc e.1 e.2) m) =
        kv.foldl (fun acc e => if e.1 = k then some e.2 else acc)
          (lookupA k m) := by
  induction kv with
  | nil => intro m; rfl
  | cons e rest ih =>
    intro m
    simp only [List.foldl_cons]
    rw [ih (objAssign m e.1 e.2), lookupA_objAssign]

theorem lookupA_objFromEntries {α : Type} (kv : List (String × α))
    (k : String) :
    lookupA k (objFromEntries kv) = lastAssoc kv k := by
  unfold objFromEntries lastAssoc
  rw [lookupA_foldl_objAssign kv k []]
  rfl

/-! ## JavaScript parsing lemmas -/

theorem jsSignSplit_neg_head (cs : List Char)
    (h : (jsSignSplit cs).1 = true) : cs.head? = some '-' := by
  cases cs with
  | nil => simp [jsSignSplit] at h
  | cons c rest =>
    by_cases hc : c = '-'
    · simp [hc]
    · by_cases hp : c = '+'
      · simp [jsSignSplit, hc, hp] at h
      · simp [jsSignSplit, hc, hp] at h

theorem jsParseInt_nonneg (s : String)
    (h : (s.data.dropWhile isJsWhitespace).head? ≠ some '-') :
    ∀ n, jsParseInt s = some n → 0 ≤ n := by
  intro n hn
  unfold jsParseInt at hn
  cases hd : digitsPrefixVal
      (jsSignSplit (s.data.dropWhile isJsWhitespace)).2 with
  | none => rw [hd] at hn; simp at hn
  | some m =>
    rw [hd] at hn
    cases hs : (jsSignSplit (s.data.dropWhile isJsWhitespace)).1 with
    | false =>
      rw [hs] at hn
      simp at hn
      omega
    | true => exact absurd (jsSignSplit_neg_head _ hs) h

theorem lookupA_isSome_of_mem {α : Type} (m : List (String × α))
    (k : String) (h : k ∈ keys m) : ∃ v, lookupA k m = some v := by
  induction m with
  | nil => simp [keys] at h
  | cons e rest ih =>
    by_cases he : e.1 = k
    · exact ⟨e.2, by simp [he]⟩
    · have : k ∈ keys rest := by
        rcases List.mem_cons.mp h with h | h
        · exact absurd h.symm he
        · exact h
      obtain ⟨v, hv⟩ := ih this
      exact ⟨v, by simp [he, hv]⟩

theorem lookupA_map_update {α : Type} (m : List (String × α))
    (k : String) (g : α → α) :
    lookupA k (m.map (fun e => if e.1 = k then (e.1, g e.2) else e)) =
      (lookupA k m).map g := by
  induction m with
  | nil => rfl
  | cons e rest ih =>
    by_cases he : e.1 = k
    · simp [he]
    · simp [he, ih]

theorem rdLookup_rdStep_self (acc : ReplacementDescription)
    (pair : ConceptPair) :
    rdLookup (rdStep acc pair) pair.root pair.branch =
      some (objFromEntries pair.keywordReplacements) := by
  simp only [rdStep, rdLookup]
  by_cases h : pair.root ∈ keys acc
  · rw [if_pos h]
    obtain ⟨inner, hinner⟩ := lookupA_isSome_of_mem acc pair.root h
    rw [lookupA_map_update acc pair.root
        (fun inner =>
          objAssign inner pair.branch
            (objFromEntries pair.keywordReplacements)),
      hinner]
    simp [lookupA_objAssign_self]
  · rw [if_neg h]
    have hbase : lookupA pair.root (acc ++ [(pair.root, [])]) = some [] := by
      rw [lookupA_append_of_not_mem _ _ _ h]
      simp
    rw [lookupA_map_update (acc ++ [(pair.root, [])]) pair.root
        (fun inner =>
          objAssign inner pair.branch
            (objFromEntries pair.keywordReplacements)),
      hbase]
    simp [lookupA_objAssign_self]

/-! ## Claim theorems -/

/-- C1 counterexample: with a keyword-replacement list that repeats the
original keyword `"solar"` (first `→ "sun"`, then `→ "wind"`), the
descriptor built by the form stores the LAST replacement
(`[("solar", "wind")]`), while the claimed first-match-wins rule would
keep the first (`[("solar", "sun")]`). -/
theorem replacementDescription_last_wins_counterexample :
    rdLookup (buildReplacementDescription
        [{ root := "solar", branch := "wind",
           keywordReplacements := [("solar", "sun"), ("solar", "wind")] }])
        "solar" "wind" = some [("solar", "wind")]
    ∧ firstMatchWins [("solar", "sun"), ("solar", "wind")]
      = [("solar", "sun")]
    ∧ ([("solar", "wind")] : List (String × String))
      ≠ [("solar", "sun")] :=
  ⟨by decide, by decide, by decide⟩

/-- C1 amended: for every sequence of user-created concept pairs, the
replacement description stores under the last-added pair's
`(root, branch)` key exactly `Object.fromEntries` of its
keyword-replacement list: an ordered collection with one entry per
distinct original keyword, ordered by each keyword's FIRST occurrence in
the user's list, whose replacement is the LAST one listed for that
keyword (last-match-wins, not first-match-wins). -/
theorem replacementDescription_order_and_last_wins
    (conceptPairs : List ConceptPair) (pair : ConceptPair)
    (kv : List (String × String)) :
    rdLookup (buildReplacementDescription (conceptPairs ++ [pair]))
        pair.root pair.branch
      = some (objFromEntries pair.keywordReplacements)
    ∧ keys (objFromEntries kv) = dedupFirst (keys kv)
    ∧ ∀ k, lookupA k (objFromEntries kv) = lastAssoc kv k := by
  refine ⟨?_, keys_objFromEntries kv, fun k => lookupA_objFromEntries kv k⟩
  unfold buildReplacementDescription
  rw [List.foldl_append]
  simp only [List.foldl_cons, List.foldl_nil]
  exact rdLookup_rdStep_self _ pair

/-- C2: updating a single leaf of a concept's override (either
`keyword_finder.manual_keywords` in the domain form's confirm, or
`source_finder.manual_sources` in the source form) is a deep merge: the
other concepts' entries are untouched, the updated concept's sibling
subtree is carried over, and the shared-config rewrites of the same
handlers leave every unrelated shared field identical. -/
theorem override_leaf_update_is_deep_merge
    (m : List (String × ConceptOverride)) (concept c' : String)
    (keywords paths : List String) (shared : ConceptBenchmarkConfig)
    (flag : Bool) (config : DomainBenchmarkConfig)
    (sources : List SourceWithConcepts) (useWikipedia : Bool) :
    (c' ≠ concept →
      lookupA c' (setManualKeywords m concept keywords) = lookupA c' m)
    ∧ (∃ ov, lookupA concept (setManualKeywords m concept keywords)
          = some ov
        ∧ ov.keyword_finder = some { manual_keywords := some keywords }
        ∧ ov.source_finder = ((lookupA concept m).getD {}).source_finder)
    ∧ (c' ≠ concept →
      lookupA c' (setManualSources m concept paths) = lookupA c' m)
    ∧ (∃ ov, lookupA concept (setManualSources m concept paths) = some ov
        ∧ ov.source_finder = some { manual_sources := some paths }
        ∧ ov.keyword_finder = ((lookupA concept m).getD {}).keyword_finder)
    ∧ (confirmSharedConfig shared flag).source_finder = shared.source_finder
    ∧ (confirmSharedConfig shared flag).scraper = shared.scraper
    ∧ (confirmSharedConfig shared flag).prompt_assembler
      = shared.prompt_assembler
    ∧ (confirmSharedConfig shared flag).keyword_finder.reading_location
      = shared.keyword_finder.reading_location
    ∧ (confirmSharedConfig shared flag).keyword_finder.keyword_number
      = shared.keyword_finder.keyword_number
    ∧ (confirmSharedConfig shared flag).keyword_finder.hyperlinks_info
      = shared.keyword_finder.hyperlinks_info
    ∧ (confirmSharedConfig shared flag).keyword_finder.llm_info
      = shared.keyword_finder.llm_info
    ∧ (confirmSharedConfig shared flag).keyword_finder.max_adjustment
      = shared.keyword_finder.max_adjustment
    ∧ (confirmSharedConfig shared flag).keyword_finder.embedding_model
      = shared.keyword_finder.embedding_model
    ∧ (confirmSharedConfig shared flag).keyword_finder.saving
      = shared.keyword_finder.saving
    ∧ (confirmSharedConfig shared flag).keyword_finder.saving_location
      = shared.keyword_finder.saving_location
    ∧ (confirmSharedConfig shared flag).keyword_finder.manual_keywords
      = shared.keyword_finder.manual_keywords
    ∧ (confirmSharedConfig shared flag).keyword_finder.concept_keywords
      = shared.keyword_finder.concept_keywords
    ∧ (updateSourceConfig config sources
        useWikipedia).shared_config.keyword_finder
      = config.shared_config.keyword_finder
    ∧ (updateSourceConfig config sources
        useWikipedia).shared_config.prompt_assembler
      = config.shared_config.prompt_assembler
    ∧ (updateSourceConfig config sources
        useWikipedia).shared_config.source_finder.reading_location
      = config.shared_config.source_finder.reading_location
    ∧ (updateSourceConfig config sources
        useWikipedia).shared_config.source_finder.local_file
      = config.shared_config.source_finder.local_file
    ∧ (updateSourceConfig config sources
        useWikipedia).shared_config.source_finder.scrape_number
      = config.shared_config.source_finder.scrape_number
    ∧ (updateSourceConfig config sources
        useWikipedia).shared_config.source_finder.saving
      = config.shared_config.source_finder.saving
    ∧ (updateSourceConfig config sources
        useWikipedia).shared_config.source_finder.saving_location
      = config.shared_config.source_finder.saving_location
    ∧ (updateSourceConfig config sources
        useWikipedia).shared_config.source_finder.scrape_backlinks
      = config.shared_config.source_finder.scrape_backlinks
    ∧ (updateSourceConfig config sources
        useWikipedia).shared_config.source_finder.manual_sources
      = config.shared_config.source_finder.manual_sources
    ∧ (updateSourceConfig config sources
        useWikipedia).shared_config.scraper.require
      = config.shared_config.scraper.require
    ∧ (updateSourceConfig config sources
        useWikipedia).shared_config.scraper.reading_location
      = config.shared_config.scraper.reading_location
    ∧ (updateSourceConfig config sources
        useWikipedia).shared_config.scraper.saving
      = config.shared_config.scraper.saving
    ∧ (updateSourceConfig config sources
        useWikipedia).shared_config.scraper.saving_location
      = config.shared_config.scraper.saving_location := by
  refine ⟨?_, ?_, ?_, ?_, rfl, rfl, rfl, rfl, rfl, rfl, rfl, rfl, rfl,
    rfl, rfl, rfl, rfl, rfl, rfl, rfl, rfl, rfl, rfl, rfl, rfl, rfl,
    rfl, rfl, rfl, rfl⟩
  · intro h
    simp only [setManualKeywords]
    exact lookupA_objAssign_ne m concept c' _ h
  · simp only [setManualKeywords]
    refine ⟨_, lookupA_objAssign_self m concept _, rfl, rfl⟩
  · intro h
    simp only [setManualSources]
    exact lookupA_objAssign_ne m concept c' _ h
  · simp only [setManualSources]
    refine ⟨_, lookupA_objAssign_self m concept _, rfl, rfl⟩

/-- C2 witness: updating concept `"A"` leaves the absent concept `"B"`
unchanged in both override-update paths. -/
theorem override_leaf_update_witness :
    lookupA "B" (setManualKeywords [] "A" ["k"])
      = lookupA "B" ([] : List (String × ConceptOverride))
    ∧ lookupA "B" (setManualSources [] "A" ["p"])
      = lookupA "B" ([] : List (String × ConceptOverride)) :=
  ⟨(override_leaf_update_is_deep_merge [] "A" "B" ["k"] ["p"]
      defaultConfig.shared_config true defaultConfig [] false).1
      (by decide),
    (override_leaf_update_is_deep_merge [] "A" "B" ["k"] ["p"]
      defaultConfig.shared_config true defaultConfig [] false).2.2.1
      (by decide)⟩

/-- C4: if the domain is blank after trimming or the concepts list is
empty, the build is rejected before any concept work starts: the
top-level `handleSubmit` shows the validation dialog instead of sending
the build request, and `DomainConfig.handleConfirm` surfaces a validation
error instead of committing the configuration. -/
theorem submit_rejected_on_empty_domain_or_concepts
    (config : DomainBenchmarkConfig)
    (h : jsTrim config.domain = "" ∨ config.concepts = []) :
    handleSubmit config = SubmitAction.showValidationDialog
    ∧ ∀ (conceptKeywords : List (String × List String))
        (showKeywordFinder : Bool),
        ∃ msg, handleConfirm config conceptKeywords showKeywordFinder =
          Except.error msg := by
  have hlen : jsTrim config.domain = "" ∨ config.concepts.length = 0 := by
    rcases h with h | h
    · exact Or.inl h
    · exact Or.inr (by rw [h]; rfl)
  constructor
  · have hv : validateForm config = false := by
      unfold validateForm
      rcases hlen with h1 | h1
      · rw [if_pos (Or.inl h1)]
      · rw [if_pos (Or.inr (Or.inl h1))]
    unfold handleSubmit
    rw [hv]
    rfl
  · intro conceptKeywords showKeywordFinder
    unfold handleConfirm
    by_cases hd : jsTrim config.domain = ""
    · rw [if_pos hd]
      exact ⟨_, rfl⟩
    · have h1 : config.concepts.length = 0 := by
        rcases hlen with h1 | h1
        · exact absurd h1 hd
        · exact h1
      rw [if_neg hd, if_pos h1]
      exact ⟨_, rfl⟩

/-- C4 witness: the default configuration (blank domain, no concepts) is
rejected by `handleSubmit`. -/
theorem submit_rejected_witness :
    (jsTrim defaultConfig.domain = "" ∨ defaultConfig.concepts = [])
    ∧ handleSubmit defaultConfig = SubmitAction.showValidationDialog :=
  ⟨Or.inl (by rfl),
    (submit_rejected_on_empty_domain_or_concepts defaultConfig
      (Or.inl (by rfl))).1⟩

/-- C6 counterexample: the default configuration's `branching_config` has
`direction = "not_both"`, which is none of `forward`, `backward`,
`both`. -/
theorem default_direction_counterexample :
    defaultConfig.branching_config.map (fun b => b.direction)
        = some "not_both"
    ∧ ("not_both" : String) ≠ "forward"
    ∧ ("not_both" : String) ≠ "backward"
    ∧ ("not_both" : String) ≠ "both" :=
  ⟨rfl, by decide, by decide, by decide⟩

/-- C6 amended: every `branching_config` produced by the branching form
has `direction = "forward"` (an allowed value), while the default
configuration ships with `direction = "not_both"`, outside
`{forward, backward, both}`. -/
theorem branching_direction_values (config : DomainBenchmarkConfig)
    (useKeywordHelper : Bool) (conceptPairs : List ConceptPair) :
    (applyBranchingForm config useKeywordHelper
        conceptPairs).branching_config.map (fun b => b.direction)
      = some "forward"
    ∧ defaultConfig.branching_config.map (fun b => b.direction)
      = some "not_both" :=
  ⟨rfl, rfl⟩

/-- C7 counterexample: selecting the same non-empty string as stem and
branch adds a pair with `root = branch`; nothing in `handleAddPair`
prevents it. -/
theorem addPair_equal_stem_branch_counterexample :
    (handleAddPair "solar" "solar" []).any
      (fun pair => decide (pair.root = pair.branch)) = true := by decide

/-- C7 amended: every pair added through the branching form has the
selected stem and typed branch as its components, and both are
non-empty; stem and branch are however NOT forced to differ. -/
theorem addPair_nonempty_fields (selectedRoot branchConcept : String)
    (prev : List ConceptPair) (pair : ConceptPair)
    (hmem : pair ∈ handleAddPair selectedRoot branchConcept prev)
    (hnew : pair ∉ prev) :
    pair.root = selectedRoot ∧ pair.branch = branchConcept
    ∧ pair.root ≠ "" ∧ pair.branch ≠ "" := by
  unfold handleAddPair at hmem
  by_cases hc : selectedRoot ≠ "" ∧ branchConcept ≠ ""
  · rw [if_pos hc] at hmem
    rcases List.mem_append.mp hmem with hmem | hmem
    · exact absurd hmem hnew
    · rcases List.mem_singleton.mp hmem with rfl
      exact ⟨rfl, rfl, hc.1, hc.2⟩
  · rw [if_neg hc] at hmem
    exact absurd hmem hnew

/-- C7 witness: adding the pair `("solar", "wind")` to an empty list. -/
theorem addPair_nonempty_fields_witness :
    ({ root := "solar", branch := "wind",
       keywordReplacements := [("solar", "wind")] } : ConceptPair).root
        = "solar"
    ∧ ({ root := "solar", branch := "wind",
         keywordReplacements := [("solar", "wind")] } : ConceptPair).branch
        = "wind"
    ∧ ({ root := "solar", branch := "wind",
         keywordReplacements := [("solar", "wind")] } : ConceptPair).root
        ≠ ""
    ∧ ({ root := "solar", branch := "wind",
         keywordReplacements := [("solar", "wind")] } : ConceptPair).branch
        ≠ "" :=
  addPair_nonempty_fields "solar" "wind" []
    { root := "solar", branch := "wind",
      keywordReplacements := [("solar", "wind")] }
    (by decide) (by decide)

/-- C10: after every source-configuration update (all of file upload,
concept reassignment, Wikipedia toggle and confirm funnel through
`updateSourceConfig`), the scraper method equals the source-finder
method, that method is `"wiki"` exactly when the Wikipedia toggle is on
and `"local_files"` otherwise, and `source_finder.require` is true. -/
theorem updateSourceConfig_sync (config : DomainBenchmarkConfig)
    (sources : List SourceWithConcepts) (useWikipedia : Bool) :
    (updateSourceConfig config sources
        useWikipedia).shared_config.scraper.method
      = (updateSourceConfig config sources
          useWikipedia).shared_config.source_finder.method
    ∧ (updateSourceConfig config sources
        useWikipedia).shared_config.source_finder.method
      = (if useWikipedia then "wiki" else "local_files")
    ∧ ((updateSourceConfig config sources
          useWikipedia).shared_config.source_finder.method = "wiki"
        ∨ (updateSourceConfig config sources
            useWikipedia).shared_config.source_finder.method
          = "local_files")
    ∧ (updateSourceConfig config sources
        useWikipedia).shared_config.source_finder.require = true := by
  refine ⟨rfl, rfl, ?_, rfl⟩
  by_cases h : useWikipedia
  · left
    simp [updateSourceConfig, h]
  · right
    simp [updateSourceConfig, h]

/-- C8 counterexample: typing `-5` into the max-benchmark-length input
stores the negative value `-5`, so the field is not guaranteed to be
`≥ 0`. -/
theorem maxBenchmarkLength_negative_counterexample :
    (handleMaxBenchmarkLengthChange defaultConfig
        "-5").shared_config.prompt_assembler.max_benchmark_length = -5
    ∧ (-5 : Int) < 0 :=
  ⟨by decide, by decide⟩

/-- C8 amended: after a change to the max-benchmark-length input the
stored value is an integer; an empty or non-numeric input yields `0`
(unlimited), a parsed value is stored verbatim, and the result is
non-negative whenever the input does not start (after whitespace) with a
minus sign — but a negative input is stored negative, unclamped. -/
theorem maxBenchmarkLength_parse (config : DomainBenchmarkConfig)
    (value : String) :
    (jsParseInt value = none →
      (handleMaxBenchmarkLengthChange config
          value).shared_config.prompt_assembler.max_benchmark_length = 0)
    ∧ (∀ n, jsParseInt value = some n →
        (handleMaxBenchmarkLengthChange config
            value).shared_config.prompt_assembler.max_benchmark_length = n)
    ∧ ((value.data.dropWhile isJsWhitespace).head? ≠ some '-' →
        0 ≤ (handleMaxBenchmarkLengthChange config
            value).shared_config.prompt_assembler.max_benchmark_length)
    ∧ jsParseInt "" = none := by
  refine ⟨?_, ?_, ?_, rfl⟩
  · intro hn
    simp [handleMaxBenchmarkLengthChange, hn]
  · intro n hn
    simp [handleMaxBenchmarkLengthChange, hn]
  · intro hh
    cases hn : jsParseInt value with
    | none => simp [handleMaxBenchmarkLengthChange, hn]
    | some n =>
      have := jsParseInt_nonneg value hh n hn
      simpa [handleMaxBenchmarkLengthChange, hn] using this

/-- C8 witness: the empty input yields `0`, a plain number is stored
verbatim and non-negatively, and `-5` is stored as `-5`. -/
theorem maxBenchmarkLength_parse_witness :
    (handleMaxBenchmarkLengthChange defaultConfig
        "").shared_config.prompt_assembler.max_benchmark_length = 0
    ∧ (handleMaxBenchmarkLengthChange defaultConfig
        "7").shared_config.prompt_assembler.max_benchmark_length = 7
    ∧ 0 ≤ (handleMaxBenchmarkLengthChange defaultConfig
        "7").shared_config.prompt_assembler.max_benchmark_length :=
  ⟨(maxBenchmarkLength_parse defaultConfig "").1 (by rfl),
    (maxBenchmarkLength_parse defaultConfig "7").2.1 7 (by decide),
    (maxBenchmarkLength_parse defaultConfig "7").2.2.1 (by decide)⟩

/-- C9: the concepts list behaves as an ordered set: an add either leaves
the list unchanged or appends the trimmed, non-empty, not-yet-present
entry at the end; adding preserves uniqueness; removing preserves the
relative order of the remaining concepts (the result is a sublist) and
eliminates the removed concept. -/
theorem conceptList_ordered_set (concepts : List String)
    (availableConcepts : Option (List String)) (newConcept c : String) :
    (handleAddConcept concepts availableConcepts newConcept = concepts
      ∨ (jsTrim newConcept ≠ "" ∧ jsTrim newConcept ∉ concepts
          ∧ handleAddConcept concepts availableConcepts newConcept
            = concepts ++ [jsTrim newConcept]))
    ∧ (concepts.Nodup →
        (handleAddConcept concepts availableConcepts newConcept).Nodup)
    ∧ List.Sublist (handleRemoveConcept concepts c) concepts
    ∧ c ∉ handleRemoveConcept concepts c := by
  have hadd : handleAddConcept concepts availableConcepts newConcept
        = concepts
      ∨ (jsTrim newConcept ≠ "" ∧ jsTrim newConcept ∉ concepts
          ∧ handleAddConcept concepts availableConcepts newConcept
            = concepts ++ [jsTrim newConcept]) := by
    unfold handleAddConcept
    by_cases hc : jsTrim newConcept ≠ "" ∧ jsTrim newConcept ∉ concepts
    · rw [if_pos hc]
      cases availableConcepts with
      | none => exact Or.inr ⟨hc.1, hc.2, rfl⟩
      | some avail =>
        dsimp only
        by_cases ha : jsTrim newConcept ∉ avail
        · rw [if_pos ha]
          exact Or.inl rfl
        · rw [if_neg ha]
          exact Or.inr ⟨hc.1, hc.2, rfl⟩
    · rw [if_neg hc]
      exact Or.inl rfl
  refine ⟨hadd, ?_, ?_, ?_⟩
  · intro hnd
    rcases hadd with h | ⟨_, hmem, h⟩
    · rw [h]; exact hnd
    · rw [h]
      simp [List.nodup_append, hnd, hmem]
  · exact List.filter_sublist concepts
  · simp [handleRemoveConcept, List.mem_filter]

/-- C9 witness: adding `"b"` to the singleton list `["a"]` keeps the
list duplicate-free. -/
theorem conceptList_ordered_set_witness :
    (["a"] : List String).Nodup
    ∧ (handleAddConcept ["a"] none "b").Nodup :=
  ⟨by decide, (conceptList_ordered_set ["a"] none "b" "a").2.1 (by decide)⟩

theorem mem_keys_setManualKeywords (m : List (String × ConceptOverride))
    (c : String) (kws : List String) (a : String) :
    a ∈ keys (setManualKeywords m c kws) ↔ a ∈ keys m ∨ a = c := by
  simp only [setManualKeywords]
  exact mem_keys_objAssign m c a _

theorem mem_keys_confirmConceptConfig (ck : List (String × List String)) :
    ∀ (csc : List (String × ConceptOverride)) (a : String),
      a ∈ keys (confirmConceptConfig csc ck) ↔
        a ∈ keys csc ∨ a ∈ keys ck := by
  induction ck with
  | nil =>
    intro csc a
    simp [confirmConceptConfig, keys]
  | cons e rest ih =>
    intro csc a
    have h1 : confirmConceptConfig csc (e :: rest)
        = confirmConceptConfig (setManualKeywords csc e.1 e.2) rest := rfl
    rw [h1, ih (setManualKeywords csc e.1 e.2) a,
      mem_keys_setManualKeywords, keys_cons, List.mem_cons]
    tauto

theorem mem_keys_foldl_objAssign_fun (l : List String)
    (f : String → List String) :
    ∀ (m : List (String × List String)) (a : String),
      a ∈ keys (l.foldl (fun acc c => objAssign acc c (f c)) m) ↔
        a ∈ keys m ∨ a ∈ l := by
  induction l with
  | nil => intro m a; simp
  | cons c rest ih =>
    intro m a
    rw [List.foldl_cons, ih (objAssign m c (f c)) a, mem_keys_objAssign,
      List.mem_cons]
    tauto

theorem mem_keys_handleConceptsChangeKeywords
    (ck : List (String × List String)) (concepts : List String)
    (a : String) :
    a ∈ keys (handleConceptsChangeKeywords ck concepts) ↔
      a ∈ concepts := by
  unfold handleConceptsChangeKeywords
  have h := mem_keys_foldl_objAssign_fun concepts
    (fun c => (lookupA c ck).getD [c]) [] a
  simp only [keys, List.map_nil, List.not_mem_nil, false_or] at h
  exact h

/-- C3 counterexample: on `demoConfigAB` (overrides keyed by `"B"`),
removing concept `"B"` and confirming succeeds but leaves the stale key
`"B"` in `concept_specified_config` even though `"B"` is no longer a
member of the concepts list. -/
theorem stale_override_key_counterexample :
    confirmSucceeded demoConfirmOutcome = true
    ∧ "B" ∈ confirmedOverrideKeys demoConfirmOutcome
    ∧ "B" ∉ confirmedConcepts demoConfirmOutcome :=
  ⟨by rfl, by decide, by decide⟩

/-- C3 amended: after a concepts-list edit followed by a successful
confirm, the keys of `concept_specified_config` are exactly the PREVIOUS
override keys together with the current concepts: entries of removed
concepts persist, so a key need not be a member of the concepts list. -/
theorem confirm_keeps_stale_override_keys (st : DomainConfigState)
    (newConcepts : List String) (showKeywordFinder : Bool)
    (result : DomainBenchmarkConfig)
    (h : handleConfirm (handleConceptsChange st newConcepts).tempConfig
          (handleConceptsChange st newConcepts).conceptKeywords
          showKeywordFinder = Except.ok result) (a : String) :
    a ∈ keys result.concept_specified_config ↔
      a ∈ keys st.tempConfig.concept_specified_config
        ∨ a ∈ newConcepts := by
  unfold handleConfirm at h
  by_cases h1 :
      jsTrim (handleConceptsChange st newConcepts).tempConfig.domain = ""
  · rw [if_pos h1] at h
    exact absurd h (by simp)
  · rw [if_neg h1] at h
    by_cases h2 :
        (handleConceptsChange st newConcepts).tempConfig.concepts.length
          = 0
    · rw [if_pos h2] at h
      exact absurd h (by simp)
    · rw [if_neg h2] at h
      injection h with h
      rw [← h]
      dsimp only [handleConceptsChange]
      rw [mem_keys_confirmConceptConfig,
        mem_keys_handleConceptsChangeKeywords]

/-- C3 witness: the amended key characterisation evaluated on the
concrete remove-then-confirm scenario. -/
theorem confirm_keeps_stale_override_keys_witness :
    "B" ∈ keys demoConfirmResult.concept_specified_config ↔
      "B" ∈ keys demoConfigAB.concept_specified_config
        ∨ "B" ∈ (["A"] : List String) :=
  confirm_keeps_stale_override_keys
    { tempConfig := demoConfigAB
      conceptKeywords := initConceptKeywords demoConfigAB } ["A"] false
    demoConfirmResult (by rfl) "B"

theorem mem_foldr_append {α β : Type} (l : List α) (f : α → List β)
    (x : β) :
    x ∈ l.foldr (fun r acc => f r ++ acc) [] ↔ ∃ r ∈ l, x ∈ f r := by
  induction l with
  | nil => simp
  | cons e rest ih => simp [ih]

/-- C5 (spec-modelled): whenever at least one per-concept result is not
`Failed`, the domain merge succeeds with a benchmark containing exactly
the non-failed concepts' prompts and branches, and every failed
concept's name and recorded error kind appears in `skipped_concepts`;
the merge fails with `MergeConflictError` exactly when every concept is
`Failed`. -/
theorem domainMerger_partial_failure (results : List ConceptBuildResult) :
    ((∃ r ∈ results, r.tier ≠ Tier.Failed) →
      ∃ b, DomainMerger.merge results = Except.ok b
        ∧ (∀ p, p ∈ b.prompts ↔
            ∃ r ∈ results, r.tier ≠ Tier.Failed ∧ p ∈ r.prompts)
        ∧ (∀ q, q ∈ b.branches ↔
            ∃ r ∈ results, r.tier ≠ Tier.Failed ∧ q ∈ r.branches)
        ∧ (∀ r ∈ results, r.tier = Tier.Failed → ∀ e, r.error = some e →
            (r.concept, e) ∈ b.skipped_concepts))
    ∧ (DomainMerger.merge results
          = Except.error ErrorKind.MergeConflictError ↔
        ∀ r ∈ results, r.tier = Tier.Failed) := by
  by_cases hc : ∀ r ∈ results, r.tier = Tier.Failed
  · refine ⟨?_, fun _ => hc, fun _ => ?_⟩
    · rintro ⟨r, hr, hne⟩
      exact absurd (hc r hr) hne
    · unfold DomainMerger.merge
      rw [if_pos hc]
  · constructor
    · intro _
      unfold DomainMerger.merge
      rw [if_neg hc]
      refine ⟨_, rfl, ?_, ?_, ?_⟩
      · intro p
        dsimp only
        rw [mem_foldr_append]
        constructor
        · rintro ⟨r, hr, hp⟩
          rw [List.mem_filter] at hr
          exact ⟨r, hr.1, by simpa using hr.2, hp⟩
        · rintro ⟨r, hr, hne, hp⟩
          exact ⟨r, List.mem_filter.mpr ⟨hr, by simpa using hne⟩, hp⟩
      · intro q
        dsimp only
        rw [mem_foldr_append]
        constructor
        · rintro ⟨r, hr, hq⟩
          rw [List.mem_filter] at hr
          exact ⟨r, hr.1, by simpa using hr.2, hq⟩
        · rintro ⟨r, hr, hne, hq⟩
          exact ⟨r, List.mem_filter.mpr ⟨hr, by simpa using hne⟩, hq⟩
      · intro r hr ht e he
        dsimp only
        rw [List.mem_filterMap]
        refine ⟨r, List.mem_filter.mpr ⟨hr, by simp [ht]⟩, ?_⟩
        rw [he]
        rfl
    · constructor
      · intro h
        unfold DomainMerger.merge at h
        rw [if_neg hc] at h
        exact absurd h (by simp)
      · intro h
        exact absurd h hc

/-- C5 witness: merging one `Branched` and one `Failed` concept succeeds
and records the failed concept in `skipped_concepts`. -/
theorem domainMerger_partial_failure_witness :
    ∃ b, DomainMerger.merge [demoOkResult, demoFailedResult]
        = Except.ok b
      ∧ ("coal", ErrorKind.SourceUnavailableError) ∈ b.skipped_concepts := by
  obtain ⟨b, hb, -, -, hsk⟩ :=
    (domainMerger_partial_failure [demoOkResult, demoFailedResult]).1
      (by decide)
  exact ⟨b, hb,
    hsk demoFailedResult (by decide) (by rfl)
      ErrorKind.SourceUnavailableError (by rfl)⟩

end SagedSpec
